import Mathlib

/-!
Verification of the HTTP-over-local-socket reply component
(`src/network/local_socket_reply.cpp`).

The C++ source is shallowly embedded below.  Byte arrays (`QByteArray`)
are modelled as lists of characters (the component only handles Latin-1
data, for which one character is one byte).  Each C++ function of the
source file has a Lean counterpart with the same name:

* `statusCodeFromHttp`  — the status-code-to-error switch;
* `send_request`        — the HTTP/1.1 request encoder;
* `read_reply`          — the readiness-notification handler
                          (its socket-drain loop is `read_burst`);
* `parse_reply`         — the response parser (its header/body scan loop
                          is `body_scan`);
* `parse_status`        — the status-line parser (the regular-expression
                          match is `parse_status_line`);
* `abort`, `readData`   — the reply-interface operations.

The mutable members of the `LocalSocketReply` object are collected in
the structure `ReplyState`.
-/

set_option autoImplicit false

namespace Multipass

/-- A byte sequence (`QByteArray`); one `Char` per byte. -/
abbrev Bytes := List Char

/-- Bytes of a string literal. -/
def bs (s : String) : Bytes := s.data

/-- The members of the `QNetworkReply::NetworkError` enumeration used by
the source file. -/
inductive NetworkError where
  | ProtocolInvalidOperationError
  | AuthenticationRequiredError
  | ContentAccessDenied
  | ContentNotFoundError
  | ContentConflictError
  | InternalServerError
  | UnknownServerError
  | UnknownContentError
  | ProtocolFailure
  | OperationCanceledError
deriving DecidableEq, Repr

/-- `statusCodeFromHttp` of the source (lines 33-79): the `switch` over
the LXD HTTP error codes, with the `default` branch distinguishing
`httpStatusCode > 500` from the rest. -/
def statusCodeFromHttp (httpStatusCode : Nat) : NetworkError :=
  if httpStatusCode = 400 then NetworkError.ProtocolInvalidOperationError
  else if httpStatusCode = 401 then NetworkError.AuthenticationRequiredError
  else if httpStatusCode = 403 then NetworkError.ContentAccessDenied
  else if httpStatusCode = 404 then NetworkError.ContentNotFoundError
  else if httpStatusCode = 409 then NetworkError.ContentConflictError
  else if httpStatusCode = 500 then NetworkError.InternalServerError
  else if 500 < httpStatusCode then NetworkError.UnknownServerError
  else NetworkError.UnknownContentError

/-- The error outcome `parse_status` derives from a numeric status code
(lines 239-246): codes `>= 400` are passed to `statusCodeFromHttp` and
set an error, smaller codes set none. -/
def classify (code : Nat) : Option NetworkError :=
  if 400 ≤ code then some (statusCodeFromHttp code) else none

/-- The mutable state of a `LocalSocketReply` object: the members
`content_data`, `offset`, `chunked_transfer_encoding` of the class, the
error/finished state maintained through `setError`/`setFinished`, the
open/closed state of the reply device (`open`/`close`), and the
connection state of the owned `QLocalSocket`.

Initial values modelled from the spec: the class header with the member
initializers is not under `src/`; the spec states the Response is
"created empty at construction" (empty body, cursor 0, no error, not
finished, not chunked), the device is opened and the socket connected by
the constructor. -/
structure ReplyState where
  content_data : Bytes := []
  offset : Nat := 0
  chunked_transfer_encoding : Bool := false
  err : Option (NetworkError × String) := none
  finished : Bool := false
  closed : Bool := false
  socket_connected : Bool := true
deriving DecidableEq, Repr

/-- The state of a freshly constructed reply. -/
def initState : ReplyState := {}

/-- `QByteArray::split(char)`: split at every separator byte; the result
always has at least one (possibly empty) part. -/
def qsplit (sep : Char) : Bytes → List Bytes
  | [] => [[]]
  | c :: rest =>
    match qsplit sep rest with
    | [] => []
    | h :: t => if c = sep then [] :: h :: t else (c :: h) :: t

/-- `QByteArray::startsWith`: `pre` is an initial run of `b`. -/
def startsWith : Bytes → Bytes → Bool
  | [], _ => true
  | _ :: _, [] => false
  | p :: ps, c :: cs => p = c && startsWith ps cs

/-- `QByteArray::contains(const char*)`: case-sensitive substring
search. -/
def containsSub (needle : Bytes) : Bytes → Bool
  | [] => needle.isEmpty
  | c :: rest => startsWith needle (c :: rest) || containsSub needle rest

/-- The byte classes removed by `QByteArray::trimmed` (ASCII space,
tab, line feed, vertical tab, form feed, carriage return). -/
def isQtSpace (c : Char) : Bool :=
  c = ' ' || c = '\t' || c = '\n' || c = '\x0b' || c = '\x0c' || c = '\r'

/-- `QByteArray::trimmed`: strip leading and trailing whitespace. -/
def trimmed (b : Bytes) : Bytes :=
  ((b.dropWhile isQtSpace).reverse.dropWhile isQtSpace).reverse

/-- Numeric value of an ASCII digit. -/
def digitVal (c : Char) : Nat := c.toNat - '0'.toNat

/-- The regular expression of `parse_status` (line 224):
`^HTTP/\d\.\d (?P<status>\d{3})\ (?P<message>.*)$`, applied to one line
of the reply (the lines are produced by splitting at `\n`, so the
subject never contains `\n`; `.` matches every other byte, `\d` is an
ASCII digit).  On a match, returns the numeric status capture (via
`QString::toInt`, which always succeeds on three digits) and the
message capture. -/
def parse_status_line : Bytes → Option (Nat × Bytes)
  | 'H' :: 'T' :: 'T' :: 'P' :: '/' :: d1 :: '.' :: d2 :: ' ' :: s1 :: s2 :: s3 :: ' ' :: msg =>
    if d1.isDigit && d2.isDigit && s1.isDigit && s2.isDigit && s3.isDigit then
      some (100 * digitVal s1 + 10 * digitVal s2 + digitVal s3, msg)
    else none
  | _ => none

/-- `parse_status` of the source (lines 222-247): no regex match sets a
`ProtocolFailure` error; a status code of at least 400 sets the error of
`statusCodeFromHttp` with the captured message. -/
def parse_status (status : Bytes) (s : ReplyState) : ReplyState :=
  match parse_status_line status with
  | none =>
    { s with err := some (NetworkError.ProtocolFailure, "Malformed HTTP response from server") }
  | some (code, msg) =>
    match classify code with
    | some e => { s with err := some (e, String.mk msg) }
    | none => s

/-- The first statement of the loop body of `parse_reply` (lines
205-206): a line that contains both `Transfer-Encoding` and `chunked`
(case-sensitive `QByteArray::contains`) sets the
`chunked_transfer_encoding` member. -/
def scan_chunk_flag (line : Bytes) (s : ReplyState) : ReplyState :=
  if containsSub (bs "Transfer-Encoding") line && containsSub (bs "chunked") line then
    { s with chunked_transfer_encoding := true }
  else s

/-- The header-scanning loop of `parse_reply` (lines 203-219), iterating
over the reply lines after the status line.  Each line is first tested
for the `Transfer-Encoding`/`chunked` substrings (`scan_chunk_flag`); a
line that is empty or starts with `\r` is the header/body separator:
the iterator is advanced by two lines when chunked (skipping the
chunk-size line) or one line otherwise, that line is trimmed into
`content_data`, and the loop breaks.  Dereferencing the iterator past
the end of the line list (undefined behaviour in the C++) is modelled as
the empty byte array. -/
def body_scan : List Bytes → ReplyState → ReplyState
  | [], s => s
  | line :: rest, s =>
    if line.isEmpty || startsWith (bs "\r") line then
      { scan_chunk_flag line s with
        content_data := trimmed
          ((if (scan_chunk_flag line s).chunked_transfer_encoding then rest.drop 1
            else rest).headD []) }
    else body_scan rest (scan_chunk_flag line s)

/-- `parse_reply` of the source (lines 196-220): split the accumulated
buffer at `\n`, parse the first line as the status line, then run the
header/body scan over the remaining lines.  (`QByteArray::split` never
returns an empty list, so the first branch is unreachable.) -/
def parse_reply (reply_data : Bytes) (s : ReplyState) : ReplyState :=
  match qsplit '\n' reply_data with
  | [] => s
  | first :: rest => body_scan rest (parse_status first s)

/-- The buffer capacity constant `len` of the source (line 29). -/
def len : Nat := 65536

/-- One iteration of the socket-drain loop of `read_reply` (line 185):
`local_socket->read(reply_data.data(), len)` writes the newly available
bytes at the START of `reply_data` — position 0, not after the
previously received bytes (the local `data_ptr` is advanced but never
used as the read destination). -/
def overwrite_read (buf chunk : Bytes) : Bytes :=
  chunk ++ buf.drop chunk.length

/-- The whole drain loop of `read_reply` (lines 183-188): the successive
non-empty socket reads of one readiness notification, each written at
the start of the buffer, until a read returns no bytes. -/
def read_burst (buf : Bytes) (reads : List Bytes) : Bytes :=
  reads.foldl overwrite_read buf

/-- `read_reply` of the source (lines 178-194): drain the socket into
the buffer, parse, and mark the reply finished.  Returns the new buffer
contents and the new reply state. -/
def read_reply (buf : Bytes) (reads : List Bytes) (s : ReplyState) : Bytes × ReplyState :=
  let buf' := read_burst buf reads
  (buf', { parse_reply buf' s with finished := true })

/-- `abort` of the source (lines 110-119): close the reply device, set
an `OperationCanceledError`, and mark the reply finished.  Note that
`content_data`, `offset` and the socket connection are left untouched
(the socket is only disconnected by the destructor). -/
def abort (s : ReplyState) : ReplyState :=
  { s with closed := true,
           err := some (NetworkError.OperationCanceledError, "Operation canceled"),
           finished := true }

/-- `readData` of the source (lines 121-133): if the cursor is before
the end of `content_data`, deliver up to `maxSize` bytes from the cursor
and advance it; otherwise return -1 (the QIODevice indication that no
more data will become available — no error is set).  Returns the return
value, the bytes copied out, and the new state. -/
def readData (s : ReplyState) (maxSize : Nat) : Int × Bytes × ReplyState :=
  if s.offset < s.content_data.length then
    let number := min maxSize (s.content_data.length - s.offset)
    ((number : Int), (s.content_data.drop s.offset).take number,
      { s with offset := s.offset + number })
  else (-1, [], s)

/-- `send_request` of the source (lines 135-176): build the raw HTTP/1.1
request bytes.  `op` is the custom-verb attribute, `url` the request
URL's string form, `outgoingData` the optional outgoing body device
(modelled as its byte contents; `size()` and `readAll()` agree on it),
and `version` the external constant `multipass::version_string` (defined
outside `src/`). -/
def send_request (op url : Bytes) (outgoingData : Option Bytes) (version : Bytes) : Bytes :=
  let d1 := op ++ bs " " ++ url ++ bs " HTTP/1.1\r\n"
  let d2 := d1 ++ bs "Host: multipass\r\n"
  let d3 := d2 ++ bs "User-Agent: Multipass/" ++ version ++ bs "\r\n"
  let d4 :=
    if op = bs "POST" ∨ op = bs "PUT" then
      let d := d3 ++ bs "Content-Type: application/x-www-form-urlencoded\r\n"
      match outgoingData with
      | some body => d ++ bs "Content-Length: " ++ bs (toString body.length) ++ bs "\r\n\r\n" ++ body
      | none => d
    else d3
  d4 ++ bs "\r\n"

/-- The request line and the `Host` and `User-Agent` headers common to
every encoded request. -/
def request_head (op url version : Bytes) : Bytes :=
  op ++ bs " " ++ url ++ bs " HTTP/1.1\r\n" ++ bs "Host: multipass\r\n" ++
    bs "User-Agent: Multipass/" ++ version ++ bs "\r\n"

/-- The header section of an encoded POST/PUT request with a body of `n`
bytes: everything `send_request` emits before the `\r\n\r\n` header
terminator. -/
def request_header_part (op url version : Bytes) (n : Nat) : Bytes :=
  request_head op url version ++ bs "Content-Type: application/x-www-form-urlencoded\r\n" ++
    bs "Content-Length: " ++ bs (toString n)

/-- The header/body separator. -/
def sep4 : Bytes := bs "\r\n\r\n"

/-- The bytes that follow the first occurrence of the `\r\n\r\n`
header terminator, if any. -/
def after_header_block : Bytes → Option Bytes
  | [] => none
  | c :: rest =>
    if startsWith sep4 (c :: rest) then some ((c :: rest).drop 4)
    else after_header_block rest

/-- Lower-casing of a byte sequence, used to express the spec's notion
of case-insensitive substring containment. -/
def lowerBytes (b : Bytes) : Bytes := b.map Char.toLower

/-- Modelled from the spec: the status-code-to-error-category table of
section 4.4, stated in the spec's words for comparison with the code's
`statusCodeFromHttp`/`classify`.  The spec's category names correspond
to the code's enumeration as follows: InvalidOperation =
`ProtocolInvalidOperationError`, AuthenticationRequired =
`AuthenticationRequiredError`, AccessDenied = `ContentAccessDenied`,
NotFound = `ContentNotFoundError`, Conflict = `ContentConflictError`,
InternalServerError = `InternalServerError`, UnknownServerError =
`UnknownServerError`, UnknownContentError = `UnknownContentError`. -/
def spec_error_table (code : Nat) : Option NetworkError :=
  if code < 400 then none
  else if code = 400 then some NetworkError.ProtocolInvalidOperationError
  else if code = 401 then some NetworkError.AuthenticationRequiredError
  else if code = 403 then some NetworkError.ContentAccessDenied
  else if code = 404 then some NetworkError.ContentNotFoundError
  else if code = 409 then some NetworkError.ContentConflictError
  else if code = 500 then some NetworkError.InternalServerError
  else if 501 ≤ code ∧ code ≤ 599 then some NetworkError.UnknownServerError
  else some NetworkError.UnknownContentError

/-- Wire bytes of a chunked response with two chunks, `test` and
`abc`. -/
def twoChunkInput : Bytes :=
  bs "HTTP/1.1 200 OK\r\nTransfer-Encoding: chunked\r\n\r\n4\r\ntest\r\n3\r\nabc\r\n0\r\n\r\n"

/-- Wire bytes of a chunked response whose Transfer-Encoding header is
upper-cased. -/
def upperChunkInput : Bytes :=
  bs "HTTP/1.1 200 OK\r\nTRANSFER-ENCODING: CHUNKED\r\n\r\n4\r\ntest\r\n0\r\n\r\n"

/-- Wire bytes of the 404 scenario: status line only, no headers, no
body. -/
def notFoundInput : Bytes := bs "HTTP/1.1 404 Not Found\r\n"

/-- Wire bytes whose first line is `GARBAGE`, followed by a header/body
separator and a body. -/
def garbageBodyInput : Bytes := bs "GARBAGE\r\n\r\nhello\r\n"

/-- A reply state with a partially assembled body. -/
def partialBodyState : ReplyState := { content_data := bs "abc" }

/-- A reply state whose cursor has reached the end of the body. -/
def endState : ReplyState := { content_data := bs "ab", offset := 2 }

/-! ## Helper lemmas -/

theorem startsWith_append (n b : Bytes) : startsWith n (n ++ b) = true := by
  induction n with
  | nil => rfl
  | cons p ps ih => simp [startsWith, ih]

theorem containsSub_append_self (n b : Bytes) : containsSub n (n ++ b) = true := by
  cases n with
  | nil =>
    cases b with
    | nil => rfl
    | cons c cs => simp [containsSub, startsWith]
  | cons x xs =>
    have h := startsWith_append (x :: xs) b
    simp only [List.cons_append] at h
    simp [containsSub, h]

theorem containsSub_append_right (n a b : Bytes) (h : containsSub n b = true) :
    containsSub n (a ++ b) = true := by
  induction a with
  | nil => simpa using h
  | cons x xs ih => simp [containsSub, ih]

theorem scan_chunk_flag_err (line : Bytes) (s : ReplyState) :
    (scan_chunk_flag line s).err = s.err := by
  unfold scan_chunk_flag; split <;> rfl

theorem scan_chunk_flag_content (line : Bytes) (s : ReplyState) :
    (scan_chunk_flag line s).content_data = s.content_data := by
  unfold scan_chunk_flag; split <;> rfl

theorem scan_chunk_flag_chunked_mono (line : Bytes) (s : ReplyState)
    (h : s.chunked_transfer_encoding = true) :
    (scan_chunk_flag line s).chunked_transfer_encoding = true := by
  unfold scan_chunk_flag
  split
  · rfl
  · exact h

theorem body_scan_err : ∀ (L : List Bytes) (s : ReplyState), (body_scan L s).err = s.err
  | [], _ => rfl
  | line :: rest, s => by
    simp only [body_scan]
    split
    · exact scan_chunk_flag_err line s
    · rw [body_scan_err rest (scan_chunk_flag line s)]
      exact scan_chunk_flag_err line s

theorem body_scan_chunked_mono : ∀ (L : List Bytes) (s : ReplyState),
    s.chunked_transfer_encoding = true → (body_scan L s).chunked_transfer_encoding = true
  | [], _, h => h
  | line :: rest, s, h => by
    simp only [body_scan]
    split
    · exact scan_chunk_flag_chunked_mono line s h
    · exact body_scan_chunked_mono rest _ (scan_chunk_flag_chunked_mono line s h)

theorem body_scan_content_nosep : ∀ (L : List Bytes) (s : ReplyState),
    (∀ l ∈ L, (l.isEmpty || startsWith (bs "\r") l) = false) →
    (body_scan L s).content_data = s.content_data
  | [], _, _ => rfl
  | line :: rest, s, h => by
    have hl := h line (List.mem_cons_self line rest)
    have hrec := body_scan_content_nosep rest (scan_chunk_flag line s)
      (fun x hx => h x (List.mem_cons_of_mem _ hx))
    simp only [body_scan, hl]
    exact hrec.trans (scan_chunk_flag_content line s)

theorem body_scan_detects : ∀ (pre : List Bytes) (line : Bytes) (post : List Bytes)
    (s : ReplyState),
    (∀ l ∈ pre, (l.isEmpty || startsWith (bs "\r") l) = false) →
    (containsSub (bs "Transfer-Encoding") line && containsSub (bs "chunked") line) = true →
    (body_scan (pre ++ line :: post) s).chunked_transfer_encoding = true
  | [], line, post, s, _, hline => by
    simp only [List.nil_append, body_scan]
    have hflag : (scan_chunk_flag line s).chunked_transfer_encoding = true := by
      unfold scan_chunk_flag
      rw [if_pos hline]
    split
    · exact hflag
    · exact body_scan_chunked_mono post _ hflag
  | l :: pre', line, post, s, hpre, hline => by
    have hl := hpre l (List.mem_cons_self l pre')
    simp only [List.cons_append, body_scan, hl]
    exact body_scan_detects pre' line post (scan_chunk_flag l s)
      (fun x hx => hpre x (List.mem_cons_of_mem _ hx)) hline

theorem after_header_block_exact : ∀ (H T : Bytes),
    (∀ t ∈ H.tails, t ≠ [] → startsWith sep4 (t ++ (sep4 ++ T)) = false) →
    after_header_block (H ++ (sep4 ++ T)) = some T
  | [], T, _ => by
    have h2 : startsWith sep4 ('\r' :: '\n' :: '\r' :: '\n' :: T) = true :=
      startsWith_append sep4 T
    show after_header_block ([] ++ (sep4 ++ T)) = some T
    rw [show (([] : Bytes) ++ (sep4 ++ T)) = '\r' :: '\n' :: '\r' :: '\n' :: T from rfl]
    rw [after_header_block, if_pos h2]
    rfl
  | c :: H', T, h => by
    have hc : startsWith sep4 (c :: (H' ++ (sep4 ++ T))) = false := by
      have := h (c :: H') (by simp [List.tails_cons]) (by simp)
      simpa using this
    show after_header_block ((c :: H') ++ (sep4 ++ T)) = some T
    rw [List.cons_append, after_header_block, if_neg (by rw [hc]; decide)]
    exact after_header_block_exact H' T
      (fun t ht hne => h t (by rw [List.tails_cons]; exact List.mem_cons_of_mem _ ht) hne)

theorem send_request_post_decomp (op url v body : Bytes)
    (hop : op = bs "POST" ∨ op = bs "PUT") :
    send_request op url (some body) v =
      request_header_part op url v body.length ++ (sep4 ++ (body ++ bs "\r\n")) := by
  simp only [send_request, request_header_part, request_head, sep4]
  rw [if_pos hop]
  simp [List.append_assoc]

theorem send_request_post_none_decomp (op url v : Bytes)
    (hop : op = bs "POST" ∨ op = bs "PUT") :
    send_request op url none v =
      request_head op url v ++
        (bs "Content-Type: application/x-www-form-urlencoded\r\n" ++ bs "\r\n") := by
  simp only [send_request, request_head]
  rw [if_pos hop]
  simp [List.append_assoc]

/-! ## Claim theorems -/

/-- Claim C1 (code bug): on the wire form of a chunked response with the
two chunks `test` and `abc`, `parse_reply` does not reassemble the
payload `testabc`: it skips a single chunk-size line and takes the one
following line as the whole body, yielding `test`.  (The source comments
the simplification itself: "We just skip it for now".) -/
theorem c1_chunked_reassembly_code_bug :
    (parse_reply twoChunkInput initState).content_data = bs "test" ∧
    (parse_reply twoChunkInput initState).chunked_transfer_encoding = true ∧
    (parse_reply twoChunkInput initState).err = none ∧
    bs "test" ≠ bs "test" ++ bs "abc" := by decide

set_option maxRecDepth 4096 in
/-- Claim C2: over the whole domain 100-599 the status classifier (the
`>= 400` gate of `parse_status` together with `statusCodeFromHttp`,
captured by `classify`) agrees exactly with the spec's table of
section 4.4 (`spec_error_table`); in particular codes below 400 set no
error.  Totality and determinism hold because `classify` is a Lean
function. -/
theorem c2_status_classifier_table :
    ∀ code : Nat, code < 600 → 100 ≤ code → classify code = spec_error_table code := by
  decide

/-- Witness for C2 at the concrete code 404. -/
theorem c2_status_classifier_table_witness :
    404 < 600 ∧ 100 ≤ 404 ∧ classify 404 = spec_error_table 404 :=
  ⟨by decide, by decide, c2_status_classifier_table 404 (by decide) (by decide)⟩

/-- Claim C3 (code bug): within one readiness notification, the drain
loop of `read_reply` writes every socket read at the start of the
buffer, so a second read overwrites the bytes of the first instead of
being appended.  After reads `ABC` then `DE` the buffer starts with
`DEC`, not `ABCDE`: the bytes `AB` have been discarded before any parse
attempt. -/
theorem c3_buffer_overwrite_code_bug :
    (read_burst (List.replicate len '\x00') [bs "ABC", bs "DE"]).take 5 =
      ['D', 'E', 'C', '\x00', '\x00'] ∧
    (['D', 'E', 'C', '\x00', '\x00'] : Bytes) ≠ bs "ABCDE" := by decide

/-- Claim C7, counterexample: `abort` on a reply with the partially
assembled body `abc` leaves `content_data` untouched (the body is not
discarded), leaves the socket connected (the transport connection is
not closed by `abort`; only the destructor disconnects), and the
`readData` implementation still delivers the body bytes afterwards. -/
theorem c7_abort_retains_body_counterexample :
    (abort partialBodyState).content_data = bs "abc" ∧
    bs "abc" ≠ ([] : Bytes) ∧
    (abort partialBodyState).socket_connected = true ∧
    (readData (abort partialBodyState) 3).2.1 = bs "abc" := by decide

/-- Claim C7, amended: `abort` immediately makes the reply terminal
(finished) with the `OperationCanceledError` (Canceled) category and
message `Operation canceled`, and closes the reply device; the
partially assembled body and the cursor are retained, and the socket
connection is left as it was (it is only disconnected on
destruction). -/
theorem c7_amended_abort (s : ReplyState) :
    (abort s).finished = true ∧
    (abort s).err = some (NetworkError.OperationCanceledError, "Operation canceled") ∧
    (abort s).closed = true ∧
    (abort s).content_data = s.content_data ∧
    (abort s).offset = s.offset ∧
    (abort s).socket_connected = s.socket_connected :=
  ⟨rfl, rfl, rfl, rfl, rfl, rfl⟩

/-- Claim C8: once the cursor has reached the end of the body, every
`readData` call returns -1 (the no-more-data indication — no error is
set), delivers no bytes, and leaves the whole state (in particular the
cursor) unchanged; repeated calls therefore all behave identically and
never return duplicate bytes. -/
theorem c8_read_after_end (s : ReplyState) (maxSize : Nat)
    (h : s.content_data.length ≤ s.offset) :
    readData s maxSize = (-1, ([] : Bytes), s) := by
  simp only [readData]
  rw [if_neg (Nat.not_lt.mpr h)]

/-- Witness for C8: a reply whose two-byte body has been fully read. -/
theorem c8_read_after_end_witness :
    endState.content_data.length ≤ endState.offset ∧
    readData endState 7 = (-1, ([] : Bytes), endState) :=
  ⟨by decide, c8_read_after_end endState 7 (by decide)⟩

/-- Claim C9, counterexample: on the exact input
`HTTP/1.1 404 Not Found\r\n` the error message is `Not Found\r`, not
`Not Found`: the buffer is split at `\n` only, so the status line keeps
its trailing `\r`, and the `.*` of the status regular expression
captures it into the message. -/
theorem c9_message_counterexample :
    (parse_reply notFoundInput initState).err =
      some (NetworkError.ContentNotFoundError, "Not Found\r") ∧
    (parse_reply notFoundInput initState).err ≠
      some (NetworkError.ContentNotFoundError, "Not Found") := by decide

/-- Claim C9, amended: the input `HTTP/1.1 404 Not Found\r\n` with
empty headers and no body yields the error category
`ContentNotFoundError` (NotFound), the message `Not Found\r` (the
reason phrase with the trailing carriage return retained), and an
empty body. -/
theorem c9_amended_404_scenario :
    (parse_reply notFoundInput initState).err =
      some (NetworkError.ContentNotFoundError, "Not Found\r") ∧
    (parse_reply notFoundInput initState).content_data = [] := by decide

/-- Claim C4, counterexample: for the POST request with body `x`, the
bytes following the header block (after the first `\r\n\r\n`) are
`x\r\n`, not the body `x` exactly — `send_request` appends a final
`\r\n` after the body bytes. -/
theorem c4_trailing_crlf_counterexample :
    after_header_block (send_request (bs "POST") (bs "/u") (some (bs "x")) (bs "1.0")) =
      some (bs "x\r\n") ∧
    some (bs "x\r\n") ≠ some (bs "x") := by decide

/-- Claim C4, amended: for a POST or PUT request with a non-empty body,
the encoded `Content-Length` value is the decimal rendering of the
body's exact byte length (the final component of
`request_header_part`), and the bytes following the header block equal
the body bytes followed by one trailing `\r\n`.  The third hypothesis
states that the header section itself contains no `\r\n\r\n` occurrence
(true whenever the URL and version string are free of `\r`, as they are
in practice). -/
theorem c4_amended_content_length_and_body (op url v body : Bytes)
    (hop : op = bs "POST" ∨ op = bs "PUT") (hbody : body ≠ [])
    (hsep : ∀ t ∈ (request_header_part op url v body.length).tails, t ≠ [] →
      startsWith sep4 (t ++ (sep4 ++ (body ++ bs "\r\n"))) = false) :
    send_request op url (some body) v =
      request_header_part op url v body.length ++ (sep4 ++ (body ++ bs "\r\n")) ∧
    after_header_block (send_request op url (some body) v) = some (body ++ bs "\r\n") := by
  have hd := send_request_post_decomp op url v body hop
  refine ⟨hd, ?_⟩
  rw [hd]
  exact after_header_block_exact _ _ hsep

set_option maxRecDepth 16384 in
/-- Witness for the amended C4 at a concrete POST request with body
`x`. -/
theorem c4_amended_witness :
    send_request (bs "POST") (bs "/1.0/instances") (some (bs "x")) (bs "1.0") =
      request_header_part (bs "POST") (bs "/1.0/instances") (bs "1.0") (bs "x").length ++
        (sep4 ++ (bs "x" ++ bs "\r\n")) ∧
    after_header_block (send_request (bs "POST") (bs "/1.0/instances") (some (bs "x")) (bs "1.0")) =
      some (bs "x" ++ bs "\r\n") :=
  c4_amended_content_length_and_body (bs "POST") (bs "/1.0/instances") (bs "1.0") (bs "x")
    (Or.inl rfl) (by decide) (by decide)

/-- Claim C5, counterexample: an input whose first line is `GARBAGE`
but which contains a header/body separator still gets a body assigned:
`parse_status` sets the `ProtocolFailure` (MalformedStatusLine) error
and returns, but `parse_reply` continues scanning and extracts `hello`
into `content_data`, so the Response does not always expose "no
body". -/
theorem c5_body_after_malformed_counterexample :
    (parse_reply garbageBodyInput initState).err =
      some (NetworkError.ProtocolFailure, "Malformed HTTP response from server") ∧
    (parse_reply garbageBodyInput initState).content_data = bs "hello" ∧
    bs "hello" ≠ ([] : Bytes) := by decide

/-- Claim C5, amended: whenever the first line of the buffer fails the
status-line pattern, the `ProtocolFailure` (MalformedStatusLine) error
is set with message `Malformed HTTP response from server`; the body is
left unchanged provided no subsequent line is a header/body separator —
in particular the input consisting solely of `GARBAGE` yields the error
and no body. -/
theorem c5_amended_malformed_status (buf : Bytes) (s : ReplyState) (first : Bytes)
    (rest : List Bytes)
    (hsplit : qsplit '\n' buf = first :: rest)
    (hmal : parse_status_line first = none)
    (hnosep : ∀ l ∈ rest, (l.isEmpty || startsWith (bs "\r") l) = false) :
    (parse_reply buf s).err =
      some (NetworkError.ProtocolFailure, "Malformed HTTP response from server") ∧
    (parse_reply buf s).content_data = s.content_data := by
  have h1 : parse_reply buf s = body_scan rest (parse_status first s) := by
    unfold parse_reply
    rw [hsplit]
  have hps : parse_status first s =
      { s with err := some (NetworkError.ProtocolFailure,
                            "Malformed HTTP response from server") } := by
    unfold parse_status
    rw [hmal]
  rw [h1, hps]
  constructor
  · rw [body_scan_err]
  · rw [body_scan_content_nosep _ _ hnosep]

/-- Witness for the amended C5: the input consisting solely of
`GARBAGE` sets the error and leaves the (empty) body unchanged. -/
theorem c5_amended_witness :
    (parse_reply (bs "GARBAGE") initState).err =
      some (NetworkError.ProtocolFailure, "Malformed HTTP response from server") ∧
    (parse_reply (bs "GARBAGE") initState).content_data = initState.content_data :=
  c5_amended_malformed_status (bs "GARBAGE") initState (bs "GARBAGE") []
    (by decide) (by decide) (by simp)

/-- Claim C6, counterexample: a header line reading
`TRANSFER-ENCODING: CHUNKED` case-insensitively contains both
`Transfer-Encoding` and `chunked` (shown via lower-casing), yet
`parse_reply` does not set the chunked flag: `QByteArray::contains` is
case-sensitive. -/
theorem c6_case_insensitive_counterexample :
    (parse_reply upperChunkInput initState).chunked_transfer_encoding = false ∧
    containsSub (lowerBytes (bs "Transfer-Encoding"))
      (lowerBytes (bs "TRANSFER-ENCODING: CHUNKED\r")) = true ∧
    containsSub (lowerBytes (bs "chunked"))
      (lowerBytes (bs "TRANSFER-ENCODING: CHUNKED\r")) = true := by decide

/-- Claim C6, amended: while scanning header lines before the first
header/body separator line, chunked transfer encoding is detected
whenever a line case-SENSITIVELY contains both `Transfer-Encoding` and
`chunked` as substrings. -/
theorem c6_amended_case_sensitive_detection (pre : List Bytes) (line : Bytes)
    (post : List Bytes) (s : ReplyState)
    (hpre : ∀ l ∈ pre, (l.isEmpty || startsWith (bs "\r") l) = false)
    (hline : (containsSub (bs "Transfer-Encoding") line &&
              containsSub (bs "chunked") line) = true) :
    (body_scan (pre ++ line :: post) s).chunked_transfer_encoding = true :=
  body_scan_detects pre line post s hpre hline

/-- Witness for the amended C6 at a concrete header list. -/
theorem c6_amended_witness :
    (body_scan ([] ++ (bs "Transfer-Encoding: chunked\r") :: [bs "\r"])
      initState).chunked_transfer_encoding = true :=
  c6_amended_case_sensitive_detection [] (bs "Transfer-Encoding: chunked\r") [bs "\r"]
    initState (by simp) (by decide)

/-- Claim C10: for POST and PUT requests the encoder always emits the
`Content-Type: application/x-www-form-urlencoded` header, body or not
(first two conjuncts: substring presence for any optional body, and the
exact bodiless form, which carries no `Content-Length` and no body
section); for every other method the output is exactly the request line
plus `Host` and `User-Agent` headers and the terminating blank line —
no Content-Type, no Content-Length, and independence from the supplied
body. -/
theorem c10_content_headers (op url v : Bytes) (outgoingData : Option Bytes) :
    ((op = bs "POST" ∨ op = bs "PUT") →
      containsSub (bs "Content-Type: application/x-www-form-urlencoded")
        (send_request op url outgoingData v) = true) ∧
    ((op = bs "POST" ∨ op = bs "PUT") →
      send_request op url none v =
        request_head op url v ++
          (bs "Content-Type: application/x-www-form-urlencoded\r\n" ++ bs "\r\n")) ∧
    (¬(op = bs "POST" ∨ op = bs "PUT") →
      send_request op url outgoingData v = request_head op url v ++ bs "\r\n") := by
  have hct : bs "Content-Type: application/x-www-form-urlencoded\r\n" =
      bs "Content-Type: application/x-www-form-urlencoded" ++ bs "\r\n" := by decide
  refine ⟨?_, ?_, ?_⟩
  · intro hop
    cases outgoingData with
    | none =>
      rw [send_request_post_none_decomp op url v hop, hct, List.append_assoc]
      apply containsSub_append_right
      exact containsSub_append_self _ _
    | some body =>
      rw [send_request_post_decomp op url v body hop, request_header_part, hct]
      simp only [List.append_assoc]
      apply containsSub_append_right
      exact containsSub_append_self _ _
  · intro hop
    exact send_request_post_none_decomp op url v hop
  · intro hneg
    simp only [send_request, request_head]
    rw [if_neg hneg]

/-- Witness for C10: a bodiless POST still carries the Content-Type
header, and a GET with a body carries neither content header nor the
body. -/
theorem c10_content_headers_witness :
    containsSub (bs "Content-Type: application/x-www-form-urlencoded")
      (send_request (bs "POST") (bs "/u") none (bs "1.0")) = true ∧
    send_request (bs "GET") (bs "/u") (some (bs "zz")) (bs "1.0") =
      request_head (bs "GET") (bs "/u") (bs "1.0") ++ bs "\r\n" :=
  ⟨(c10_content_headers (bs "POST") (bs "/u") (bs "1.0") none).1 (Or.inl rfl),
   (c10_content_headers (bs "GET") (bs "/u") (bs "1.0") (some (bs "zz"))).2.2 (by decide)⟩

end Multipass
